import Mathlib

/-!
Shallow embedding of the video-shiksha pipeline orchestrator: credit
accounting (`CreditService`), the shared pricing table and estimators,
the job-status update used by every worker job handler, the worker job
handlers themselves (parse, TTS), the web-side render-starting operation
(`VideoService.renderVideo`), the LibreOffice slide extraction fallback,
and the storage keys used by the render and subtitle stages.

Conventions used throughout the embedding:
* Database rows are Lean structures; the relevant tables are association
  lists or single rows threaded explicitly through each operation.
* A `throw` in the source is an `Except.error` carrying the thrown
  message; an operation that returns `Except.error` has mutated nothing,
  because the updated state is only produced on the `ok` branch.
* Prisma update semantics: passing `undefined` for a field leaves the
  stored column unchanged, passing `null` clears it, passing a value
  stores it.  This is the `FieldUpdate` type below.
* JavaScript truthiness on an optional string (`!slide.audioUrl`,
  `x || default`) treats both `null`/`undefined` and the empty string
  as false; `jsTruthyStr` and `jsOrStr`/`jsOrNat` model this.
* Timestamps are an abstract `Nat` supplied by the caller (`now`).
-/

namespace VideoShiksha

/-- Job types of the shared `JobType` enum
(`packages/shared`, used by `CREDIT_COSTS`). -/
inductive JobType where
  | PPT_PARSE
  | PDF_PARSE
  | DOCX_PARSE
  | SCRIPT_GENERATE
  | SCRIPT_TRANSLATE
  | TTS_GENERATE
  | VIDEO_RENDER
  | SUBTITLE_GENERATE
  | THUMBNAIL_GENERATE
  | ANALYTICS_UPDATE
  deriving DecidableEq, Repr

/-- The `CREDIT_COSTS` table from `packages/shared/dist/constants/index.js`. -/
def CREDIT_COSTS : JobType → Nat
  | .PPT_PARSE => 0
  | .PDF_PARSE => 1
  | .DOCX_PARSE => 1
  | .SCRIPT_GENERATE => 1
  | .SCRIPT_TRANSLATE => 2
  | .TTS_GENERATE => 2
  | .VIDEO_RENDER => 5
  | .SUBTITLE_GENERATE => 1
  | .THUMBNAIL_GENERATE => 1
  | .ANALYTICS_UPDATE => 0

/-- A row of the `user` table, restricted to the `credits` column that
`CreditService` reads and writes. -/
structure UserRecord where
  credits : Int
  deriving DecidableEq, Repr

/-- One entry written by `CreditService.createCreditTransaction`
(the credit ledger record; the source logs it with kind
`ADDITION`/`DEDUCTION`, the amount and the job type). -/
structure CreditTransaction where
  userId : String
  kind : String
  amount : Int
  jobType : Option JobType
  deriving DecidableEq, Repr

/-- The persistent state touched by `CreditService`: the `user` table
keyed by user id, and the append-only transaction ledger. -/
structure CreditDb where
  users : List (String × UserRecord)
  transactions : List CreditTransaction
  deriving DecidableEq, Repr

/-- `db.user.findUnique({ where: { id: userId } })`. -/
def findUser (db : CreditDb) (userId : String) : Option UserRecord :=
  (db.users.find? (fun p => p.1 == userId)).map Prod.snd

/-- `db.user.update({ where: { id: userId }, data: { credits: newCredits } })`:
the row with the matching id gets the new credit balance. -/
def updateUserCredits (db : CreditDb) (userId : String) (newCredits : Int) :
    CreditDb :=
  { db with
    users := db.users.map
      (fun p => if p.1 == userId then (p.1, ⟨newCredits⟩) else p) }

/-- The return value of `CreditService.deductCredits` on success. -/
structure DeductResult where
  success : Bool
  creditsDeducted : Int
  remainingCredits : Option Int
  deriving DecidableEq, Repr

/-- The message thrown by `deductCredits` when the balance is short:
`Insufficient credits. Required: ${cost}, Available: ${user.credits}`. -/
def insufficientCreditsMsg (required available : Int) : String :=
  "Insufficient credits. Required: " ++ toString required
    ++ ", Available: " ++ toString available

/-- `CreditService.deductCredits(userId, jobType, quantity)`
(`src/unnamed/part_014` lines 27-68).  Cost is
`CREDIT_COSTS[jobType] * quantity`; zero cost returns success without
touching the database; otherwise the user is looked up, an insufficient
balance throws before any write, and on success the balance is
decremented and a `DEDUCTION` transaction is recorded.  Note the
function takes no job id. -/
def deductCredits (db : CreditDb) (userId : String) (jobType : JobType)
    (quantity : Nat) : Except String (CreditDb × DeductResult) :=
  let cost : Int := (CREDIT_COSTS jobType : Int) * quantity
  if cost = 0 then
    .ok (db, ⟨true, 0, none⟩)
  else
    match findUser db userId with
    | none => .error "User not found"
    | some user =>
      if user.credits < cost then
        .error (insufficientCreditsMsg cost user.credits)
      else
        let db1 := updateUserCredits db userId (user.credits - cost)
        let db2 := { db1 with
          transactions := db1.transactions ++
            [⟨userId, "DEDUCTION", cost, some jobType⟩] }
        .ok (db2, ⟨true, cost, some (user.credits - cost)⟩)

/-- The database state seen by a caller of `deductCredits`: the new
state on success, the unchanged state when the call throws (a thrown
call has performed no write, see `deductCredits`). -/
def debitState (db : CreditDb) (userId : String) (jobType : JobType)
    (quantity : Nat) : CreditDb :=
  ((deductCredits db userId jobType quantity).toOption.map Prod.fst).getD db

/-- The balance the `user` table records for a user (0 when absent). -/
def userBalance (db : CreditDb) (userId : String) : Int :=
  ((findUser db userId).map UserRecord.credits).getD 0

/-- The return value of `CreditService.checkCreditsSufficient`. -/
structure SufficiencyResult where
  sufficient : Bool
  required : Int
  available : Int
  shortage : Int
  deriving DecidableEq, Repr

/-- `CreditService.checkCreditsSufficient(userId, jobType, quantity)`
(`src/unnamed/part_014` lines 176-198). -/
def checkCreditsSufficient (db : CreditDb) (userId : String)
    (jobType : JobType) (quantity : Nat) : Except String SufficiencyResult :=
  let cost : Int := (CREDIT_COSTS jobType : Int) * quantity
  if cost = 0 then
    .ok ⟨true, 0, 0, 0⟩
  else
    match findUser db userId with
    | none => .error "User not found"
    | some user =>
      .ok ⟨decide (cost ≤ user.credits), cost, user.credits,
        max 0 (cost - user.credits)⟩

/-- `videoQuality` option of `CreditService.estimateProjectCredits`. -/
inductive VideoQuality where
  | low
  | medium
  | high
  deriving DecidableEq, Repr

/-- The `videoMultiplier` of `estimateProjectCredits`:
`videoQuality === 'high' ? 1.5 : videoQuality === 'low' ? 0.5 : 1`. -/
def videoMultiplier : VideoQuality → Rat
  | .high => 3 / 2
  | .low => 1 / 2
  | .medium => 1

/-- `CreditService.estimateProjectCredits(slideCount, options).totalCredits`
(`src/unnamed/part_014` lines 200-245).  The `CREDIT_COSTS.X || d`
fallbacks of the source coincide with the table values, so the table is
consulted directly. -/
def estimateProjectCredits (slideCount : Nat) (hasCustomScript : Bool)
    (hasSubtitles : Bool) (videoQuality : VideoQuality) : Rat :=
  (CREDIT_COSTS .PPT_PARSE : Rat)
    + (if hasCustomScript then 0
        else (slideCount : Rat) * (CREDIT_COSTS .SCRIPT_GENERATE : Rat))
    + (slideCount : Rat) * (CREDIT_COSTS .TTS_GENERATE : Rat)
    + (CREDIT_COSTS .VIDEO_RENDER : Rat) * videoMultiplier videoQuality
    + (if hasSubtitles then (CREDIT_COSTS .SUBTITLE_GENERATE : Rat) else 0)

/-- `PricingCalculator.calculateProjectCredits(slideCount,
hasCustomScript, hasSubtitles).totalCredits`
(`src/packages/shared/dist/pricing/index.js` lines 41-66): the sum of
the breakdown object, which unconditionally includes the PDF/DOCX
parse, script-translate, thumbnail and analytics costs. -/
def calculateProjectCredits (slideCount : Nat) (hasCustomScript : Bool)
    (hasSubtitles : Bool) : Nat :=
  CREDIT_COSTS .PPT_PARSE
    + CREDIT_COSTS .PDF_PARSE
    + CREDIT_COSTS .DOCX_PARSE
    + (if hasCustomScript then 0
        else slideCount * CREDIT_COSTS .SCRIPT_GENERATE)
    + CREDIT_COSTS .SCRIPT_TRANSLATE
    + slideCount * CREDIT_COSTS .TTS_GENERATE
    + CREDIT_COSTS .VIDEO_RENDER
    + (if hasSubtitles then CREDIT_COSTS .SUBTITLE_GENERATE else 0)
    + CREDIT_COSTS .THUMBNAIL_GENERATE
    + CREDIT_COSTS .ANALYTICS_UPDATE

/-- One optional field of a Prisma `update` call: `undef` is the
omitted/`undefined` parameter (the stored column is left unchanged),
`setNull` is an explicit `null`, `setVal` stores a value. -/
inductive FieldUpdate (α : Type) where
  | undef
  | setNull
  | setVal (v : α)
  deriving DecidableEq, Repr

/-- Apply a `FieldUpdate` to the stored column value. -/
def applyFieldUpdate (old : Option α) : FieldUpdate α → Option α
  | .undef => old
  | .setNull => none
  | .setVal v => some v

/-- A row of the `job` table, restricted to the columns written by the
worker-side `updateJobStatus` helper.  `result` is the JSON result
payload, kept as an abstract string. -/
structure JobRecord where
  status : String
  progress : Nat
  result : Option String
  error : Option String
  startedAt : Option Nat
  completedAt : Option Nat
  updatedAt : Nat
  deriving DecidableEq, Repr

/-- The `updateJobStatus(jobId, status, progress, result?, error?)`
helper duplicated in every worker job file
(e.g. `src/apps/worker/src/jobs/ppt.parse.ts` lines 82-95): a single
unconditional `db.job.update` that stores the given status and
progress, applies the optional result/error parameters with Prisma
`undefined` semantics, stamps `updatedAt`, sets `startedAt` when the
new status is `RUNNING` and `completedAt` when it is `COMPLETED` or
`FAILED`. -/
def updateJobStatus (now : Nat) (j : JobRecord) (status : String)
    (progress : Nat) (result : FieldUpdate String)
    (error : FieldUpdate String) : JobRecord :=
  { status := status
    progress := progress
    result := applyFieldUpdate j.result result
    error := applyFieldUpdate j.error error
    updatedAt := now
    startedAt := if status == "RUNNING" then some now else j.startedAt
    completedAt :=
      if status == "COMPLETED" || status == "FAILED" then some now
      else j.completedAt }

/-- A row of the `project` table (id and status). -/
structure ProjectRecord where
  id : String
  status : String
  deriving DecidableEq, Repr

/-- A row of the `slide` table. -/
structure SlideRecord where
  id : String
  projectId : String
  order : Nat
  title : String
  content : String
  imageUrl : Option String
  audioUrl : Option String
  duration : Nat
  deriving DecidableEq, Repr

/-- A row of the `script` table (id, owning slide, content). -/
structure ScriptRecord where
  id : String
  slideId : String
  content : String
  deriving DecidableEq, Repr

/-- A row of the `video` table, restricted to the columns the render
path touches. -/
structure VideoRecord where
  id : String
  projectId : String
  status : String
  resolution : String
  format : String
  url : Option String
  deriving DecidableEq, Repr

/-- JavaScript truthiness of an optional string value:
`null`/`undefined` and the empty string are falsy. -/
def jsTruthyStr : Option String → Bool
  | none => false
  | some s => !(s == "")

/-- JavaScript `x || d` on an optional string (falsy values, including
the empty string, fall back to the default). -/
def jsOrStr (x : Option String) (d : String) : String :=
  match x with
  | none => d
  | some s => if s == "" then d else s

/-- JavaScript `x || d` on an optional number (`0` is falsy and falls
back to the default). -/
def jsOrNat (x : Option Nat) (d : Nat) : Nat :=
  match x with
  | none => d
  | some n => if n == 0 then d else n

/-- One slide as returned by `LibreOfficeService.extractSlides` /
`parseTextToSlides` (title, content, optional image, optional
estimated duration). -/
structure RawSlide where
  title : String
  content : String
  imageUrl : Option String
  duration : Option Nat
  deriving DecidableEq, Repr

/-- Whitespace as recognised by JavaScript `String.prototype.trim`
(restricted to the characters that occur in extracted text). -/
def isJsSpace (c : Char) : Bool :=
  c == ' ' || c == '\t' || c == '\n' || c == '\r'

/-- JavaScript `s.trim()`: strip leading and trailing whitespace
(modelled over the character list so it evaluates by reduction). -/
def trimChars (s : String) : String :=
  String.mk (((s.data.dropWhile isJsSpace).reverse.dropWhile isJsSpace).reverse)

/-- Helper of `splitOnChar`: the accumulator holds the current piece
reversed. -/
def splitOnCharAux (sep : Char) : List Char → List Char → List String
  | [], acc => [String.mk acc.reverse]
  | c :: rest, acc =>
    if c == sep then String.mk acc.reverse :: splitOnCharAux sep rest []
    else splitOnCharAux sep rest (c :: acc)

/-- JavaScript `s.split(sep)` for a one-character separator, keeping
empty pieces (modelled over the character list so it evaluates by
reduction). -/
def splitOnChar (sep : Char) (s : String) : List String :=
  splitOnCharAux sep s.data []

/-- `line.match(/^[A-Z]/)`: the line starts with an ASCII uppercase
letter. -/
def startsWithUpper (s : String) : Bool :=
  match s.data with
  | [] => false
  | c :: _ => 65 ≤ c.toNat && c.toNat ≤ 90

/-- `LibreOfficeService.estimateDuration(content)`:
`Math.max(5, Math.ceil(words / 150 * 60))` where `words` counts the
chunks of `content.split(' ')`; the ceiling of `words * 2 / 5` is
computed exactly on naturals. -/
def estimateDuration (content : String) : Nat :=
  let words := (splitOnChar ' ' content).length
  max 5 ((2 * words + 4) / 5)

/-- The loop body of `LibreOfficeService.parseTextToSlides`: walks the
(pre-filtered, hence never blank) lines carrying the current
`{title, content}` slide; an uppercase-initial line opens a slide when
none is open, any other line while a slide is open is appended to its
content, and the final open slide with non-blank content is pushed with
its estimated duration.  The blank-line branch of the source is kept
although the filtered input makes it unreachable. -/
def parseLines : List String → Option (String × String) → List RawSlide →
    List RawSlide
  | [], cur, slides =>
    match cur with
    | some (t, c) =>
      if trimChars c ≠ "" then slides ++ [⟨t, c, none, some (estimateDuration c)⟩]
      else slides
    | none => slides
  | line :: rest, cur, slides =>
    match cur with
    | none =>
      if startsWithUpper line then parseLines rest (some (line, "")) slides
      else parseLines rest none slides
    | some (t, c) =>
      if trimChars line = "" then
        if trimChars c ≠ "" then
          parseLines rest none (slides ++ [⟨t, c, none, some (estimateDuration c)⟩])
        else parseLines rest none slides
      else parseLines rest (some (t, c ++ line ++ " ")) slides

/-- The slides accumulated by the parse loop, before the mock fallback:
split on newlines, drop blank lines, run the loop. -/
def rawParse (text : String) : List RawSlide :=
  parseLines ((splitOnChar '\n' text).filter (fun l => trimChars l ≠ "")) none []

/-- `LibreOfficeService.getMockSlides()`: the fixed deterministic
five-slide placeholder list
(`src/apps/worker/src/services/libreoffice.service.ts` lines 98-146). -/
def getMockSlides : List RawSlide :=
  [⟨"Introduction",
    "Welcome to this presentation. Today we will explore the main topics and key concepts that will help us understand this subject better.",
    none, some 5⟩,
   ⟨"Main Topic",
    "Let\x27s dive into the main subject matter and understand its importance in our current context. This topic has significant implications for our work.",
    none, some 7⟩,
   ⟨"Key Points",
    "Here are the essential points you need to remember about this topic. These concepts will form the foundation of our understanding.",
    none, some 6⟩,
   ⟨"Examples",
    "Let me provide you with some practical examples that illustrate these concepts in action. These examples will help solidify your understanding.",
    none, some 8⟩,
   ⟨"Conclusion",
    "To summarize what we\x27ve learned and discuss the next steps for implementing these ideas in practice.",
    none, some 4⟩]

/-- `LibreOfficeService.parseTextToSlides(text)`: the parse loop, with
the mock-slide fallback when it yields no slides. -/
def parseTextToSlides (text : String) : List RawSlide :=
  let slides := rawParse text
  if slides.length = 0 then getMockSlides else slides

/-- `LibreOfficeService.extractSlides(fileBuffer)`
(`src/apps/worker/src/services/libreoffice.service.ts` lines 9-50).
The external LibreOffice conversion is abstracted as its outcome
`conv`: `error` when the `exec` throws (the whole try-block falls back
to the mock slides), `ok none` when the converted text file is missing
(the text defaults to the empty string), `ok (some text)` on success.
The function never raises: every branch returns a slide list. -/
def extractSlides (conv : Except String (Option String)) : List RawSlide :=
  match conv with
  | .error _ => getMockSlides
  | .ok txt => parseTextToSlides (txt.getD "")

/-- The database state touched by the TTS worker handler: the owning
project row, the slide and script tables, and the handler's own job
row. -/
structure TtsDb where
  project : ProjectRecord
  slides : List SlideRecord
  scripts : List ScriptRecord
  job : JobRecord
  deriving DecidableEq, Repr

/-- `db.script.findUnique({ where: { id: scriptId } })`. -/
def findScript (scripts : List ScriptRecord) (scriptId : String) :
    Option ScriptRecord :=
  scripts.find? (fun s => s.id == scriptId)

/-- `script.slide.projectId`: the owning project id of a slide (the
Prisma `include: { slide: true }` relation; the relation is required,
the default covers only the impossible dangling case). -/
def projectIdOfSlide (slides : List SlideRecord) (slideId : String) : String :=
  (((slides.find? (fun s => s.id == slideId)).map SlideRecord.projectId)).getD ""

/-- `db.slide.update({ where: { id: slideId }, data: { audioUrl } })`. -/
def updateSlideAudio (slides : List SlideRecord) (slideId : String)
    (url : String) : List SlideRecord :=
  slides.map (fun s => if s.id == slideId then { s with audioUrl := some url } else s)

/-- `ttsGenerateJob(job)` (`src/apps/worker/src/jobs/tts.generate.ts`).
The speech-synthesis collaborator is abstracted as its outcome
`speech` (`error msg` when `aiService.generateSpeech` throws).  The
storage upload is modelled as returning the storage key
`audio/{projectId}/{scriptId}.mp3` as the URL.  Success path: progress
10/30/70, slide `audioUrl` persisted, progress 90, job COMPLETED 100.
Catch path (missing script or collaborator error): only
`updateJobStatus(job.id, FAILED, 0, null, message)` runs — the project
row and the slide table are not touched. -/
def ttsGenerateJob (now : Nat) (db : TtsDb) (scriptId : String)
    (speech : Except String String) : TtsDb :=
  let dbA := { db with job := updateJobStatus now db.job "RUNNING" 10 .undef .undef }
  match findScript dbA.scripts scriptId with
  | none =>
    { dbA with job :=
        updateJobStatus now dbA.job "FAILED" 0 .setNull (.setVal "Script not found") }
  | some script =>
    let dbB := { dbA with job := updateJobStatus now dbA.job "RUNNING" 30 .undef .undef }
    match speech with
    | .error msg =>
      { dbB with job :=
          updateJobStatus now dbB.job "FAILED" 0 .setNull (.setVal msg) }
    | .ok _audio =>
      let dbC := { dbB with job := updateJobStatus now dbB.job "RUNNING" 70 .undef .undef }
      let audioUrl :=
        "audio/" ++ projectIdOfSlide dbC.slides script.slideId ++ "/"
          ++ scriptId ++ ".mp3"
      let dbD := { dbC with slides := updateSlideAudio dbC.slides script.slideId audioUrl }
      let dbE := { dbD with job := updateJobStatus now dbD.job "RUNNING" 90 .undef .undef }
      { dbE with job :=
          updateJobStatus now dbE.job "COMPLETED" 100 (.setVal audioUrl) .undef }

/-- The database state touched by the parse worker handler. -/
structure ParseDb where
  project : ProjectRecord
  slides : List SlideRecord
  job : JobRecord
  deriving DecidableEq, Repr

/-- The `db.slide.create` call of `pptParseJob` for the extracted slide
at index `idx`: order `idx + 1`, `duration: slide.duration || 5`
(JavaScript falsiness), no audio yet.  The database-generated row id is
modelled as a deterministic fresh id. -/
def mkSlideRecord (projectId : String) (idx : Nat) (s : RawSlide) : SlideRecord :=
  { id := projectId ++ "-slide-" ++ toString (idx + 1)
    projectId := projectId
    order := idx + 1
    title := s.title
    content := s.content
    imageUrl := s.imageUrl
    audioUrl := none
    duration := jsOrNat s.duration 5 }

/-- `pptParseJob(job)` (`src/apps/worker/src/jobs/ppt.parse.ts`).  The
storage download and the LibreOffice conversion are abstracted as their
outcomes.  Success path: progress 10/30/60, the extracted slides are
persisted with 1-based contiguous order, progress 90, then the project
row is set to status COMPLETED and the job to COMPLETED 100.  Catch
path (download failure): the project is set to FAILED and the job to
FAILED 0 with the error message. -/
def pptParseJob (now : Nat) (db : ParseDb) (projectId : String)
    (download : Except String String) (conv : Except String (Option String)) :
    ParseDb :=
  let dbA := { db with job := updateJobStatus now db.job "RUNNING" 10 .undef .undef }
  match download with
  | .error msg =>
    let dbF := { dbA with project := { dbA.project with status := "FAILED" } }
    { dbF with job := updateJobStatus now dbF.job "FAILED" 0 .setNull (.setVal msg) }
  | .ok _file =>
    let dbB := { dbA with job := updateJobStatus now dbA.job "RUNNING" 30 .undef .undef }
    let slides := extractSlides conv
    let dbC := { dbB with job := updateJobStatus now dbB.job "RUNNING" 60 .undef .undef }
    let dbD := { dbC with
      slides := dbC.slides ++
        slides.enum.map (fun (p : Nat × RawSlide) => mkSlideRecord projectId p.1 p.2) }
    let dbE := { dbD with job := updateJobStatus now dbD.job "RUNNING" 90 .undef .undef }
    let dbF := { dbE with project := { dbE.project with status := "COMPLETED" } }
    let pr : FieldUpdate String := .setVal "Successfully parsed presentation"
    { dbF with job := updateJobStatus now dbF.job "COMPLETED" 100 pr .undef }

/-- The optional settings argument of `VideoService.renderVideo`. -/
structure RenderSettings where
  resolution : Option String
  format : Option String
  quality : Option String
  transitionDuration : Option Nat
  deriving DecidableEq, Repr

/-- One entry added to the `video-rendering` queue by
`queueService.addJob('video-rendering', JobType.VIDEO_RENDER, {...})`. -/
structure QueuedRenderJob where
  queueName : String
  jobName : String
  videoId : String
  projectId : String
  slides : List SlideRecord
  deriving DecidableEq, Repr

/-- The state mutated by `VideoService.renderVideo`: the `video` table
and the render queue. -/
structure RenderState where
  videos : List VideoRecord
  queue : List QueuedRenderJob
  deriving DecidableEq, Repr

/-- The `db.video.create` call of `renderVideo`: status PENDING,
`resolution: settings?.resolution || 'FULL_HD_1080'`,
`format: settings?.format || 'MP4'`.  The database-generated id is the
supplied `videoId`. -/
def pendingVideo (videoId projectId : String) (settings : Option RenderSettings) :
    VideoRecord :=
  { id := videoId
    projectId := projectId
    status := "PENDING"
    resolution := jsOrStr (settings.bind RenderSettings.resolution) "FULL_HD_1080"
    format := jsOrStr (settings.bind RenderSettings.format) "MP4"
    url := none }

/-- The queue entry enqueued by `renderVideo` for the created video. -/
def renderQueueEntry (videoId projectId : String) (slides : List SlideRecord) :
    QueuedRenderJob :=
  { queueName := "video-rendering"
    jobName := "video-render"
    videoId := videoId
    projectId := projectId
    slides := slides }

/-- `VideoService.renderVideo(projectId, settings?)`
(`src/apps/web/services/script.service.ts` lines 77-145).  The project
lookup result (row plus its ordered slides) is passed in as `proj`.
A missing project, or any slide with a falsy `audioUrl`
(`project.slides.filter(slide => !slide.audioUrl)` non-empty — note
JavaScript truthiness, so the empty string counts as missing), throws
before anything is written; the surrounding catch rethrows the fixed
message `Failed to start video rendering`.  Otherwise exactly one
PENDING video row is created and exactly one render job is enqueued. -/
def renderVideo (st : RenderState)
    (proj : Option (ProjectRecord × List SlideRecord)) (newVideoId : String)
    (settings : Option RenderSettings) :
    Except String (RenderState × VideoRecord) :=
  match proj with
  | none => .error "Failed to start video rendering"
  | some (project, slides) =>
    let slidesWithoutAudio := slides.filter (fun s => !(jsTruthyStr s.audioUrl))
    if slidesWithoutAudio.length > 0 then
      .error "Failed to start video rendering"
    else
      let video := pendingVideo newVideoId project.id settings
      let st1 := { st with videos := st.videos ++ [video] }
      let st2 := { st1 with
        queue := st1.queue ++ [renderQueueEntry newVideoId project.id slides] }
      .ok (st2, video)

/-- The storage key the render worker uploads the finished video under:
`videos/${projectId}/${videoId}.mp4`
(`src/apps/worker/src/jobs/video.render.ts` line 54). -/
def renderVideoStorageKey (projectId videoId : String) : String :=
  "videos/" ++ projectId ++ "/" ++ videoId ++ ".mp4"

/-- The storage key the subtitle worker downloads the video from:
`videos/${projectId}/${videoId}.mp3`
(`subtitleGenerateJob`, `src/apps/worker/src/jobs/script.generate.ts`
part line 128). -/
def subtitleVideoStorageKey (projectId videoId : String) : String :=
  "videos/" ++ projectId ++ "/" ++ videoId ++ ".mp3"

/-- `storage.uploadBuffer(content, key, ...)` on an association-list
blob store. -/
def storeUpload (key content : String) (store : List (String × String)) :
    List (String × String) :=
  store ++ [(key, content)]

/-- `storage.downloadFile(key)` on the association-list blob store:
`none` models the `NotFound` failure. -/
def storeDownload (key : String) (store : List (String × String)) :
    Option String :=
  (store.find? (fun p => p.1 == key)).map Prod.snd

/-! Concrete database fixtures used to evaluate the embedded operations
at explicit inputs. -/

/-- A credit database with a single user `u1` holding 10 credits. -/
def creditDbTen : CreditDb := ⟨[("u1", ⟨10⟩)], []⟩

/-- A credit database with a single user `u1` holding 2 credits. -/
def creditDbTwo : CreditDb := ⟨[("u1", ⟨2⟩)], []⟩

/-- A RUNNING job row that has reported 90 percent progress. -/
def jobRunning90 : JobRecord :=
  { status := "RUNNING", progress := 90, result := none, error := none
    startedAt := some 0, completedAt := none, updatedAt := 0 }

/-- A terminal COMPLETED job row with its result payload. -/
def jobCompleted : JobRecord :=
  { status := "COMPLETED", progress := 100, result := some "payload"
    error := none, startedAt := some 0, completedAt := some 1, updatedAt := 1 }

/-- A freshly created PENDING job row. -/
def jobPending : JobRecord :=
  { status := "PENDING", progress := 0, result := none, error := none
    startedAt := none, completedAt := none, updatedAt := 0 }

/-- Slide 1 of project `p1`, audio already synthesized. -/
def slideOne : SlideRecord :=
  { id := "s1", projectId := "p1", order := 1, title := "One", content := "c1"
    imageUrl := none, audioUrl := some "audio/p1/sc1.mp3", duration := 5 }

/-- Slide 2 of project `p1`, no audio yet. -/
def slideTwo : SlideRecord :=
  { id := "s2", projectId := "p1", order := 2, title := "Two", content := "c2"
    imageUrl := none, audioUrl := none, duration := 5 }

/-- Slide 3 of project `p1`, audio already synthesized. -/
def slideThree : SlideRecord :=
  { id := "s3", projectId := "p1", order := 3, title := "Three", content := "c3"
    imageUrl := none, audioUrl := some "audio/p1/sc3.mp3", duration := 5 }

/-- A slide whose `audioUrl` column holds the empty string: a non-null
audio reference that JavaScript truthiness treats as missing. -/
def slideEmptyAudio : SlideRecord :=
  { id := "s9", projectId := "p1", order := 1, title := "Nine", content := "c9"
    imageUrl := none, audioUrl := some "", duration := 5 }

/-- The script of slide 2, whose speech synthesis is about to run. -/
def scriptTwo : ScriptRecord := { id := "sc2", slideId := "s2", content := "c2" }

/-- The processing project row `p1`. -/
def projectProcessing : ProjectRecord := { id := "p1", status := "PROCESSING" }

/-- TTS worker state: project `p1` PROCESSING, slides 1 and 3 already
carrying audio, slide 2 pending with its script, TTS job PENDING. -/
def ttsDbFixture : TtsDb :=
  { project := projectProcessing
    slides := [slideOne, slideTwo, slideThree]
    scripts := [scriptTwo]
    job := jobPending }

/-- Parse worker state: project `p1` PROCESSING, no slides yet. -/
def parseDbFixture : ParseDb :=
  { project := projectProcessing, slides := [], job := jobPending }

/-- An empty render state (no videos, empty queue). -/
def emptyRenderState : RenderState := { videos := [], queue := [] }

/-! Helper lemmas. -/

/-- String append acts as list append on the underlying character data. -/
theorem strData_append (s t : String) : (s ++ t).data = s.data ++ t.data := by
  cases s
  cases t
  rfl

/-- Updating the credit balance of a user present in the table makes a
subsequent lookup return the new balance. -/
theorem find_map_updateCredits (l : List (String × UserRecord)) (u : String)
    (c : Int) (h : (l.find? (fun p => p.1 == u)).isSome) :
    ((l.map (fun p => if p.1 == u then (p.1, (⟨c⟩ : UserRecord)) else p)).find?
      (fun p => p.1 == u)) = some (u, ⟨c⟩) := by
  induction l with
  | nil => simp [List.find?] at h
  | cons a t ih =>
    by_cases ha : a.1 = u
    · simp [List.find?, ha]
    · have hb : (a.1 == u) = false := beq_eq_false_iff_ne.mpr ha
      rw [List.find?_cons_of_neg _ (by simp [hb])] at h
      rw [List.map_cons, if_neg (by simp [hb]),
        List.find?_cons_of_neg _ (by simp [hb])]
      exact ih h

/-- `findUser` after `updateUserCredits` for a user present in the
table. -/
theorem findUser_updateUserCredits (db : CreditDb) (u : String) (c : Int)
    (h : (findUser db u).isSome) :
    findUser (updateUserCredits db u c) u = some ⟨c⟩ := by
  unfold findUser updateUserCredits
  unfold findUser at h
  have h2 : (db.users.find? (fun p => p.1 == u)).isSome := by
    rcases hfind : db.users.find? (fun p => p.1 == u) with _ | pr
    · rw [hfind] at h
      simp at h
    · simp [hfind]
  rw [show ({ db with
        users := db.users.map
          (fun p => if p.1 == u then (p.1, (⟨c⟩ : UserRecord)) else p) } :
      CreditDb).users = db.users.map
        (fun p => if p.1 == u then (p.1, (⟨c⟩ : UserRecord)) else p) from rfl,
    find_map_updateCredits db.users u c h2]
  rfl

/-- Evaluating `deductCredits` on a present user with a positive cost
that the balance covers: the balance is decremented and one DEDUCTION
ledger entry is appended. -/
theorem deductCredits_ok (db : CreditDb) (u : String) (jt : JobType)
    (q : Nat) (user : UserRecord) (hu : findUser db u = some user)
    (hpos : (0 : Int) < (CREDIT_COSTS jt : Int) * q)
    (hge : (CREDIT_COSTS jt : Int) * q ≤ user.credits) :
    deductCredits db u jt q =
      .ok ({ users := (updateUserCredits db u
                (user.credits - (CREDIT_COSTS jt : Int) * q)).users,
             transactions := db.transactions ++
               [⟨u, "DEDUCTION", (CREDIT_COSTS jt : Int) * q, some jt⟩] },
           ⟨true, (CREDIT_COSTS jt : Int) * q,
             some (user.credits - (CREDIT_COSTS jt : Int) * q)⟩) := by
  simp only [deductCredits, hu]
  rw [if_neg (ne_of_gt hpos), if_neg (not_lt.mpr hge)]
  rfl

/-- Evaluating `deductCredits` on a present user whose balance is below
a positive cost: the insufficient-credits error is thrown. -/
theorem deductCredits_insufficient (db : CreditDb) (u : String)
    (jt : JobType) (q : Nat) (user : UserRecord)
    (hu : findUser db u = some user)
    (hpos : (0 : Int) < (CREDIT_COSTS jt : Int) * q)
    (hlt : user.credits < (CREDIT_COSTS jt : Int) * q) :
    deductCredits db u jt q =
      .error (insufficientCreditsMsg ((CREDIT_COSTS jt : Int) * q)
        user.credits) := by
  simp only [deductCredits, hu]
  rw [if_neg (ne_of_gt hpos), if_pos hlt]

/-- The state seen by the caller after a successful `deductCredits`
call is the returned database. -/
theorem debitState_of_ok (db db' : CreditDb) (u : String) (jt : JobType)
    (q : Nat) (r : DeductResult)
    (h : deductCredits db u jt q = .ok (db', r)) :
    debitState db u jt q = db' := by
  unfold debitState
  rw [h]
  rfl

/-! Claim theorems. -/

/-- C1 (amended): `deductCredits` is not idempotent and is keyed on
nothing — it takes no jobId parameter, and every successful call
decrements the balance by the full cost, so calling it twice deducts
twice: the balance after two identical calls differs from the balance
after one. -/
theorem C1_deductCredits_not_idempotent (db : CreditDb) (u : String)
    (jt : JobType) (q : Nat) (user : UserRecord)
    (hu : findUser db u = some user)
    (hpos : (0 : Int) < (CREDIT_COSTS jt : Int) * q)
    (hsuff : 2 * ((CREDIT_COSTS jt : Int) * q) ≤ user.credits) :
    userBalance (debitState db u jt q) u
        = user.credits - (CREDIT_COSTS jt : Int) * q
    ∧ userBalance (debitState (debitState db u jt q) u jt q) u
        = user.credits - 2 * ((CREDIT_COSTS jt : Int) * q)
    ∧ userBalance (debitState (debitState db u jt q) u jt q) u
        ≠ userBalance (debitState db u jt q) u := by
  have hge1 : (CREDIT_COSTS jt : Int) * q ≤ user.credits := by linarith
  have h1 := deductCredits_ok db u jt q user hu hpos hge1
  have hd1 := debitState_of_ok _ _ _ _ _ _ h1
  have hf1 : findUser (debitState db u jt q) u
      = some ⟨user.credits - (CREDIT_COSTS jt : Int) * q⟩ := by
    rw [hd1]
    exact findUser_updateUserCredits db u _ (by rw [hu]; rfl)
  have hb1 : userBalance (debitState db u jt q) u
      = user.credits - (CREDIT_COSTS jt : Int) * q := by
    unfold userBalance
    rw [hf1]
    rfl
  have hge2 : (CREDIT_COSTS jt : Int) * q
      ≤ user.credits - (CREDIT_COSTS jt : Int) * q := by linarith
  have h2 := deductCredits_ok (debitState db u jt q) u jt q
    ⟨user.credits - (CREDIT_COSTS jt : Int) * q⟩ hf1 hpos hge2
  have hd2 := debitState_of_ok _ _ _ _ _ _ h2
  have hf2 : findUser (debitState (debitState db u jt q) u jt q) u
      = some ⟨user.credits - (CREDIT_COSTS jt : Int) * q
          - (CREDIT_COSTS jt : Int) * q⟩ := by
    rw [hd2]
    exact findUser_updateUserCredits (debitState db u jt q) u _
      (by rw [hf1]; rfl)
  have hb2 : userBalance (debitState (debitState db u jt q) u jt q) u
      = user.credits - (CREDIT_COSTS jt : Int) * q
          - (CREDIT_COSTS jt : Int) * q := by
    unfold userBalance
    rw [hf2]
    rfl
  refine ⟨hb1, ?_, ?_⟩
  · rw [hb2]
    ring
  · rw [hb2, hb1]
    intro heq
    have hzero : (CREDIT_COSTS jt : Int) * q = 0 := by linarith
    exact absurd hzero (ne_of_gt hpos)

/-- C1 (witness): the double deduction evaluated on a 10-credit user
and the 2-credit TTS stage — 8 credits after one call, 6 after two. -/
theorem C1_deductCredits_not_idempotent_witness :
    userBalance (debitState creditDbTen "u1" JobType.TTS_GENERATE 1) "u1" = 8
    ∧ userBalance (debitState (debitState creditDbTen "u1"
        JobType.TTS_GENERATE 1) "u1" JobType.TTS_GENERATE 1) "u1" = 6
    ∧ userBalance (debitState (debitState creditDbTen "u1"
          JobType.TTS_GENERATE 1) "u1" JobType.TTS_GENERATE 1) "u1"
        ≠ userBalance (debitState creditDbTen "u1"
            JobType.TTS_GENERATE 1) "u1" := by
  have h := C1_deductCredits_not_idempotent creditDbTen "u1"
    JobType.TTS_GENERATE 1 ⟨10⟩ (by decide) (by decide) (by decide)
  exact ⟨h.1, h.2.1, h.2.2⟩

/-- C1 (counterexample): for the user `u1` with 10 credits, two
identical TTS debit calls end at balance 6, not at the balance 8 a
second no-op call would leave — the second call mutates the balance
again, refuting the claimed idempotence. -/
theorem C1_counterexample :
    userBalance (debitState (debitState creditDbTen "u1"
        JobType.TTS_GENERATE 1) "u1" JobType.TTS_GENERATE 1) "u1"
      ≠ userBalance (debitState creditDbTen "u1"
          JobType.TTS_GENERATE 1) "u1" := by decide

/-- C7: for a present user and a stage with positive total cost,
`deductCredits` fails with the insufficient-credits error exactly when
the balance is below cost times quantity; a failed call leaves the
balance and the ledger unchanged, and a successful call decreases the
balance by exactly cost times quantity while appending exactly one
DEDUCTION ledger entry. -/
theorem C7_deduct_gate (db : CreditDb) (u : String) (jt : JobType)
    (q : Nat) (user : UserRecord) (hu : findUser db u = some user)
    (hpos : (0 : Int) < (CREDIT_COSTS jt : Int) * q) :
    (user.credits < (CREDIT_COSTS jt : Int) * q →
      deductCredits db u jt q =
          .error (insufficientCreditsMsg ((CREDIT_COSTS jt : Int) * q)
            user.credits)
        ∧ debitState db u jt q = db)
    ∧ ((CREDIT_COSTS jt : Int) * q ≤ user.credits →
      userBalance (debitState db u jt q) u
          = user.credits - (CREDIT_COSTS jt : Int) * q
        ∧ (debitState db u jt q).transactions
            = db.transactions ++
              [⟨u, "DEDUCTION", (CREDIT_COSTS jt : Int) * q, some jt⟩]) := by
  constructor
  · intro hlt
    have he := deductCredits_insufficient db u jt q user hu hpos hlt
    refine ⟨he, ?_⟩
    unfold debitState
    rw [he]
    rfl
  · intro hge
    have h1 := deductCredits_ok db u jt q user hu hpos hge
    have hd1 := debitState_of_ok _ _ _ _ _ _ h1
    constructor
    · have hf1 : findUser (debitState db u jt q) u
          = some ⟨user.credits - (CREDIT_COSTS jt : Int) * q⟩ := by
        rw [hd1]
        exact findUser_updateUserCredits db u _ (by rw [hu]; rfl)
      unfold userBalance
      rw [hf1]
      rfl
    · rw [hd1]

/-- C7 (witness): the gate evaluated on concrete users — a 2-credit
user cannot pay a 4-credit TTS debit and the state is unchanged, while
a 10-credit user paying a 2-credit TTS debit ends at 8 with exactly one
ledger entry. -/
theorem C7_deduct_gate_witness :
    (deductCredits creditDbTwo "u1" JobType.TTS_GENERATE 2
        = .error (insufficientCreditsMsg 4 2)
      ∧ debitState creditDbTwo "u1" JobType.TTS_GENERATE 2 = creditDbTwo)
    ∧ (userBalance (debitState creditDbTen "u1" JobType.TTS_GENERATE 1) "u1"
          = 8
      ∧ (debitState creditDbTen "u1" JobType.TTS_GENERATE 1).transactions
          = [⟨"u1", "DEDUCTION", 2, some JobType.TTS_GENERATE⟩]) := by
  constructor
  · exact (C7_deduct_gate creditDbTwo "u1" JobType.TTS_GENERATE 2 ⟨2⟩
      (by decide) (by decide)).1 (by decide)
  · exact (C7_deduct_gate creditDbTen "u1" JobType.TTS_GENERATE 1 ⟨10⟩
      (by decide) (by decide)).2 (by decide)

/-- C2 (amended): the render-starting operation enqueues a render job
if and only if every slide's `audioUrl` is truthy (non-null and
non-empty).  When some slide's audio reference is null or empty, it
raises the fixed error and neither a Video row nor a queue entry is
created; when every slide has a truthy audio reference, exactly one
PENDING Video row is created and exactly one render job is enqueued. -/
theorem C2_render_audio_gate (st : RenderState) (p : ProjectRecord)
    (slides : List SlideRecord) (vid : String)
    (settings : Option RenderSettings) :
    (slides.all (fun s => jsTruthyStr s.audioUrl) = false →
      renderVideo st (some (p, slides)) vid settings
        = .error "Failed to start video rendering")
    ∧ (slides.all (fun s => jsTruthyStr s.audioUrl) = true →
      renderVideo st (some (p, slides)) vid settings
        = .ok ({ videos := st.videos ++ [pendingVideo vid p.id settings],
                 queue := st.queue ++ [renderQueueEntry vid p.id slides] },
               pendingVideo vid p.id settings)) := by
  constructor
  · intro hall
    have hnot : ¬ (∀ x ∈ slides, jsTruthyStr x.audioUrl = true) := by
      rw [← List.all_eq_true]
      simp [hall]
    push_neg at hnot
    obtain ⟨x, hx, hpx⟩ := hnot
    have hfalse : jsTruthyStr x.audioUrl = false := by
      simpa using hpx
    have hmem : x ∈ slides.filter (fun s => !(jsTruthyStr s.audioUrl)) :=
      List.mem_filter.mpr ⟨hx, by simp [hfalse]⟩
    have hlen :
        0 < (slides.filter (fun s => !(jsTruthyStr s.audioUrl))).length :=
      List.length_pos.mpr (List.ne_nil_of_mem hmem)
    simp only [renderVideo, if_pos hlen]
  · intro hall
    have hnil : slides.filter (fun s => !(jsTruthyStr s.audioUrl)) = [] := by
      rw [List.filter_eq_nil_iff]
      intro a ha
      have := List.all_eq_true.mp hall a ha
      simp [this]
    simp [renderVideo, hnil]

/-- C2 (witness): the gate evaluated concretely — both slides carrying
audio start the render with exactly one video row and one queue entry,
while a slide without audio aborts with the fixed error. -/
theorem C2_render_audio_gate_witness :
    renderVideo emptyRenderState (some (projectProcessing,
        [slideOne, slideThree])) "v1" none
      = .ok ({ videos := [pendingVideo "v1" "p1" none],
               queue := [renderQueueEntry "v1" "p1" [slideOne, slideThree]] },
             pendingVideo "v1" "p1" none)
    ∧ renderVideo emptyRenderState (some (projectProcessing, [slideTwo]))
        "v2" none
      = .error "Failed to start video rendering" := by
  constructor
  · exact (C2_render_audio_gate emptyRenderState projectProcessing
      [slideOne, slideThree] "v1" none).2 (by decide)
  · exact (C2_render_audio_gate emptyRenderState projectProcessing
      [slideTwo] "v2" none).1 (by decide)

/-- C2 (counterexample): a slide whose `audioUrl` is the empty string
has a non-null audio reference, yet the render-starting operation still
raises instead of enqueuing — the claimed iff on non-null references
fails on JavaScript truthiness. -/
theorem C2_counterexample :
    slideEmptyAudio.audioUrl ≠ none
    ∧ renderVideo emptyRenderState (some (projectProcessing,
        [slideEmptyAudio])) "v1" none
      = .error "Failed to start video rendering" := ⟨by decide, rfl⟩

/-- C5 (amended): when the speech-synthesis collaborator fails, the TTS
handler marks only its own Job FAILED (progress 0, error message
recorded); the owning Project row and the slide table — including the
other slides' already-persisted audio references — are left exactly as
they were.  (Only the parse and render handlers set the Project FAILED
on failure.) -/
theorem C5_tts_failure_project_untouched (now : Nat) (db : TtsDb)
    (scriptId msg : String) (script : ScriptRecord)
    (hs : findScript db.scripts scriptId = some script) :
    (ttsGenerateJob now db scriptId (.error msg)).project = db.project
    ∧ (ttsGenerateJob now db scriptId (.error msg)).slides = db.slides
    ∧ (ttsGenerateJob now db scriptId (.error msg)).job.status = "FAILED"
    ∧ (ttsGenerateJob now db scriptId (.error msg)).job.progress = 0
    ∧ (ttsGenerateJob now db scriptId (.error msg)).job.error = some msg := by
  simp [ttsGenerateJob, hs, updateJobStatus, applyFieldUpdate]

/-- C5 (witness): the failing TTS run evaluated on the concrete
three-slide fixture. -/
theorem C5_tts_failure_project_untouched_witness :
    (ttsGenerateJob 1 ttsDbFixture "sc2"
        (.error "TTS synthesis failed")).project = ttsDbFixture.project
    ∧ (ttsGenerateJob 1 ttsDbFixture "sc2"
        (.error "TTS synthesis failed")).slides = ttsDbFixture.slides
    ∧ (ttsGenerateJob 1 ttsDbFixture "sc2"
        (.error "TTS synthesis failed")).job.status = "FAILED"
    ∧ (ttsGenerateJob 1 ttsDbFixture "sc2"
        (.error "TTS synthesis failed")).job.progress = 0
    ∧ (ttsGenerateJob 1 ttsDbFixture "sc2"
        (.error "TTS synthesis failed")).job.error
        = some "TTS synthesis failed" :=
  C5_tts_failure_project_untouched 1 ttsDbFixture "sc2"
    "TTS synthesis failed" scriptTwo (by decide)

/-- C5 (counterexample): a TTS job failure on the three-slide fixture
marks the Job FAILED but leaves the owning Project PROCESSING — the
Project status is not set to FAILED, refuting the claim (the other
slides' audio references are indeed retained). -/
theorem C5_counterexample :
    (ttsGenerateJob 1 ttsDbFixture "sc2"
        (.error "TTS synthesis failed")).job.status = "FAILED"
    ∧ (ttsGenerateJob 1 ttsDbFixture "sc2"
        (.error "TTS synthesis failed")).project.status ≠ "FAILED"
    ∧ (ttsGenerateJob 1 ttsDbFixture "sc2"
        (.error "TTS synthesis failed")).slides
        = [slideOne, slideTwo, slideThree] := by decide

/-- C3 (amended): `updateJobStatus` performs no monotonicity check — it
stores exactly the progress value it is passed, whatever the job's
current progress is. -/
theorem C3_updateJobStatus_overwrites_progress (now : Nat) (j : JobRecord)
    (s : String) (p : Nat) (r e : FieldUpdate String) :
    (updateJobStatus now j s p r e).progress = p := rfl

/-- C3 (counterexample): a job at 90 percent progress accepts an update
to 10 percent — the written progress decreases instead of the call
being rejected, refuting the claim that the job-status update rejects
any progress value lower than the current one. -/
theorem C3_counterexample :
    (updateJobStatus 1 jobRunning90 "RUNNING" 10 .undef .undef).progress
      < jobRunning90.progress := by decide

/-- C4 (amended): there is no terminal-safety check — applied to a Job
whose status is terminal (COMPLETED or FAILED), `updateJobStatus` still
overwrites the status and progress with the given values rather than
being a no-op. -/
theorem C4_terminal_job_overwritten (now : Nat) (j : JobRecord) (s : String)
    (p : Nat) (r e : FieldUpdate String)
    (_hterm : j.status = "COMPLETED" ∨ j.status = "FAILED") :
    (updateJobStatus now j s p r e).status = s
    ∧ (updateJobStatus now j s p r e).progress = p := ⟨rfl, rfl⟩

/-- C4 (witness): the terminal-job overwrite evaluated on a concrete
COMPLETED job. -/
theorem C4_terminal_job_overwritten_witness :
    (updateJobStatus 2 jobCompleted "RUNNING" 10 .undef .undef).status = "RUNNING"
    ∧ (updateJobStatus 2 jobCompleted "RUNNING" 10 .undef .undef).progress = 10 :=
  C4_terminal_job_overwritten 2 jobCompleted "RUNNING" 10 .undef .undef (Or.inl rfl)

/-- C4 (counterexample): applying a transition to a COMPLETED job is not
a no-op — both the status and the progress of the record change. -/
theorem C4_counterexample :
    (updateJobStatus 2 jobCompleted "RUNNING" 10 .undef .undef).status
        ≠ jobCompleted.status
    ∧ (updateJobStatus 2 jobCompleted "RUNNING" 10 .undef .undef).progress
        ≠ jobCompleted.progress := by decide

/-- C6 (code bug): every successful run of the parse stage sets the
owning Project's status to COMPLETED, before any script, TTS or render
job has run — the claim (and the spec's pipeline design, under which
only render/subtitle completion marks the Project COMPLETED) is
contradicted by the parse handler. -/
theorem C6_parse_marks_project_completed (now : Nat) (db : ParseDb)
    (projectId file : String) (conv : Except String (Option String)) :
    (pptParseJob now db projectId (.ok file) conv).project.status
      = "COMPLETED" := rfl

/-- C8 (counterexample): for a 3-slide project with no custom script and
subtitles enabled, `PricingCalculator.calculateProjectCredits` does not
return `N*SCRIPT_COST + N*TTS_COST + RENDER_COST + SUBTITLE_COST`
(it returns 20, the claimed sum is 15). -/
theorem C8_counterexample :
    calculateProjectCredits 3 false true
      ≠ 3 * CREDIT_COSTS .SCRIPT_GENERATE + 3 * CREDIT_COSTS .TTS_GENERATE
          + CREDIT_COSTS .VIDEO_RENDER + CREDIT_COSTS .SUBTITLE_GENERATE := by
  decide

/-- C8 (amended): the two pre-flight estimators disagree.
`CreditService.estimateProjectCredits` (defaults: medium quality)
computes exactly the claimed
`N*SCRIPT_COST + N*TTS_COST + RENDER_COST + SUBTITLE_COST`, while
`PricingCalculator.calculateProjectCredits` computes `3*N + 11` because
its breakdown unconditionally adds the PDF-parse, DOCX-parse,
script-translate and thumbnail costs.  Both consult the same
`CREDIT_COSTS` table. -/
theorem C8_estimators_disagree (n : Nat) :
    estimateProjectCredits n false true .medium
        = (n : Rat) * (CREDIT_COSTS .SCRIPT_GENERATE : Rat)
          + (n : Rat) * (CREDIT_COSTS .TTS_GENERATE : Rat)
          + (CREDIT_COSTS .VIDEO_RENDER : Rat)
          + (CREDIT_COSTS .SUBTITLE_GENERATE : Rat)
    ∧ calculateProjectCredits n false true = 3 * n + 11 := by
  constructor
  · simp [estimateProjectCredits, CREDIT_COSTS, videoMultiplier]
  · simp [calculateProjectCredits, CREDIT_COSTS]
    ring

/-- C9: when the external conversion command throws, and likewise when
text parsing yields zero slides, `extractSlides` returns the fixed
five-slide placeholder list instead of raising — its result type has no
failure case at all, so a failed extraction is indistinguishable from a
successful one at this interface. -/
theorem C9_extraction_fallback :
    (∀ msg, extractSlides (.error msg) = getMockSlides)
    ∧ (∀ text, rawParse text = [] →
        extractSlides (.ok (some text)) = getMockSlides)
    ∧ getMockSlides.length = 5 := by
  refine ⟨fun msg => rfl, fun text h => ?_, rfl⟩
  simp [extractSlides, parseTextToSlides, h]

/-- C9 (witness): the fallback evaluated on a concrete failed conversion
and on a concrete text that parses to zero slides. -/
theorem C9_extraction_fallback_witness :
    extractSlides (.error "conversion failed") = getMockSlides
    ∧ rawParse "no uppercase lines here" = []
    ∧ extractSlides (.ok (some "no uppercase lines here")) = getMockSlides :=
  ⟨C9_extraction_fallback.1 "conversion failed", by decide,
    C9_extraction_fallback.2.1 "no uppercase lines here" (by decide)⟩

/-- C10: the render stage uploads under `videos/{p}/{v}.mp4` while the
subtitle stage downloads `videos/{p}/{v}.mp3`; the keys are never equal,
so downloading the subtitle key from a store holding only the render
stage's upload finds nothing — the round-trip fails for every input. -/
theorem C10_render_subtitle_keys_disjoint (p v content : String) :
    renderVideoStorageKey p v ≠ subtitleVideoStorageKey p v
    ∧ storeDownload (subtitleVideoStorageKey p v)
        (storeUpload (renderVideoStorageKey p v) content []) = none := by
  have hne : renderVideoStorageKey p v ≠ subtitleVideoStorageKey p v := by
    intro h
    have hd := congrArg String.data h
    simp only [renderVideoStorageKey, subtitleVideoStorageKey,
      strData_append] at hd
    have h2 := List.append_cancel_left hd
    exact absurd h2 (by decide)
  have hb : (renderVideoStorageKey p v == subtitleVideoStorageKey p v) = false :=
    beq_eq_false_iff_ne.mpr hne
  refine ⟨hne, ?_⟩
  simp [storeDownload, storeUpload, List.find?, hb]

end VideoShiksha
